import Mathlib

/-!
Shallow embedding of the Adaptive Baseline & Anomaly Detection Engine of the
beehive monitoring firmware (src/learning.cpp, src/learning.h, src/config.h).

Modelling conventions:
* C `float` values are modelled as exact rationals (`ℚ`); the claims under
  verification are about exact formulas, comparisons and field copies, not
  about rounding of IEEE arithmetic.
* `uint16_t` counters (`learningSampleCount`, `DailyPattern.sampleCount`) are
  modelled as `ℕ` reduced modulo `2^16 = 65536` at each increment, mirroring
  unsigned wraparound. `unsigned long` (`RunningStats::count_`) is modelled as
  plain `ℕ`.
* `sqrt` (used by `RunningStats::standardDeviation` and for the motion
  magnitude) has no exact rational counterpart; every definition that needs it
  takes an explicit function `sqrtQ : ℚ → ℚ` as a parameter, and theorems hold
  for every such function.
* The persisted binary blob (`LEARN.DAT`) is modelled at field granularity as
  a `List DatField`; position `i` of the list is the `i`-th scalar field of the
  fixed layout written by `saveLearnedParameters` (see `saveFieldAt`).  A short
  C `File.read` leaves the bytes beyond the available data unchanged in the
  destination, which at field granularity is: a read past the end of the list
  leaves the old field value in place (`readFltAt` / `readNatAt`).
-/

namespace Beehive

/-! ## Constants from src/config.h -/

def THRESH_B1 : ℚ := 0.6
def THRESH_B2 : ℚ := 0.4
def THRESH_B3 : ℚ := 0.3
def THRESH_B4 : ℚ := 0.2
def MIN_AUDIO_THRESHOLD : ℚ := 0.05
def TEMP_ALERT_LOW : ℚ := 30.0
def TEMP_ALERT_HIGH : ℚ := 38.0
def HUM_ALERT_LOW : ℚ := 50.0
def HUM_ALERT_HIGH : ℚ := 70.0
def MIN_SAFE_TEMP : ℚ := 25.0
def MAX_SAFE_TEMP : ℚ := 42.0
def MIN_SAFE_HUMIDITY : ℚ := 30.0
def MAX_SAFE_HUMIDITY : ℚ := 90.0
def TEMP_ANOMALY_THRESHOLD : ℚ := 3.0
def HUMIDITY_ANOMALY_THRESHOLD : ℚ := 3.0
def WEIGHT_ANOMALY_THRESHOLD : ℚ := 3.5
def WEIGHT_CHANGE_THRESHOLD : ℚ := 2.0
def LEARNING_SAMPLES_MIN : ℕ := 100
def LEARNING_ADAPTATION_RATE : ℚ := 0.05
def LEARNING_UPDATE_INTERVAL : ℕ := 50
def LEARNING_SAVE_INTERVAL : ℕ := 20

/-! ## RunningStats (src/learning.h lines 45-63, src/learning.cpp lines 587-653) -/

/-- Online mean/variance estimator state: `count_`, `mean_`, `M2_`
(src/learning.h lines 59-62). -/
structure RunningStats where
  count_ : ℕ
  mean_ : ℚ
  M2_ : ℚ
deriving DecidableEq

/-- The constructor-initialised state `count_(0), mean_(0), M2_(0)`
(src/learning.h line 47). -/
def RunningStats.init : RunningStats := ⟨0, 0, 0⟩

/-- Welford update, src/learning.cpp lines 608-616. -/
def RunningStats.addSample (st : RunningStats) (value : ℚ) : RunningStats :=
  let count := st.count_ + 1
  let delta := value - st.mean_
  let mean := st.mean_ + delta / (count : ℚ)
  let delta2 := value - mean
  { count_ := count, mean_ := mean, M2_ := st.M2_ + delta * delta2 }

/-- `reset()`, src/learning.cpp lines 621-625. -/
def RunningStats.reset (_st : RunningStats) : RunningStats := ⟨0, 0, 0⟩

/-- `partialReset(keepRatio)`, src/learning.cpp lines 587-591:
`if (count_ > 0) count_ = max(1, (int)(count_ * keepRatio));`.
The C float-to-int cast truncates toward zero; composed with `max(1, ·)` this
equals `max 1 ⌊count_ * keepRatio⌋₊` for every argument (negative or
fractional truncated values are clamped to 1 either way). -/
def RunningStats.partialReset (st : RunningStats) ( keepRatio : ℚ) : RunningStats :=
  if st.count_ > 0 then
    { st with count_ := max 1 ⌊(st.count_ : ℚ) * keepRatio⌋.toNat }
  else st

/-- `setStats(mean, stdDev)`, src/learning.cpp lines 596-603:
`count_ = 30; M2_ = stdDev * stdDev * (count_ - 1)`. -/
def RunningStats.setStats (_st : RunningStats) (mean stdDev : ℚ) : RunningStats :=
  { count_ := 30, mean_ := mean, M2_ := stdDev * stdDev * (30 - 1) }

/-- `mean()`, src/learning.cpp lines 630-632. -/
def RunningStats.mean (st : RunningStats) : ℚ :=
  if st.count_ > 0 then st.mean_ else 0

/-- `variance()`, src/learning.cpp lines 637-639. -/
def RunningStats.variance (st : RunningStats) : ℚ :=
  if st.count_ > 1 then st.M2_ / ((st.count_ - 1 : ℕ) : ℚ) else 0

/-- `standardDeviation()`, src/learning.cpp lines 644-646, parameterised by
the square-root routine. -/
def RunningStats.standardDeviation (st : RunningStats) (sqrtQ : ℚ → ℚ) : ℚ :=
  sqrtQ st.variance

/-! ## Data model (src/learning.h lines 22-42) -/

/-- `SensorBaseline`, src/learning.h lines 22-34. -/
@[ext] structure SensorBaseline where
  tempMean : ℚ
  tempStdDev : ℚ
  humidityMean : ℚ
  humidityStdDev : ℚ
  pressureMean : ℚ
  pressureStdDev : ℚ
  weightMean : ℚ
  weightStdDev : ℚ
  weightDailyDelta : ℚ
  audioEnergy : Fin 4 → ℚ
  audioStdDev : Fin 4 → ℚ
deriving DecidableEq

/-- `DailyPattern`, src/learning.h lines 37-42 (`sampleCount` is `uint16_t`). -/
@[ext] structure DailyPattern where
  activityLevel : ℚ
  tempOffset : ℚ
  humidityOffset : ℚ
  sampleCount : ℕ
deriving DecidableEq

/-- The engine's process-wide static state (src/learning.cpp lines 19-35).
`saveCalls` is instrumentation: it counts how many `saveLearnedParameters()`
call sites have been reached, so "triggers a save" claims are statable; it is
not part of the C state. -/
@[ext] structure EngineState where
  colonyBaseline : SensorBaseline
  baselineEstablished : Bool
  learningSampleCount : ℕ
  currentSeason : ℕ
  tempStats : RunningStats
  humidityStats : RunningStats
  pressureStats : RunningStats
  weightStats : RunningStats
  audioStats : Fin 4 → RunningStats
  lightStats : RunningStats
  motionStats : RunningStats
  dailyPatterns : Fin 24 → Fin 4 → DailyPattern
  saveCalls : ℕ
deriving DecidableEq

/-- Zero-initialised statics at power-on (C++ static initialisation of the
globals in src/learning.cpp lines 19-35). -/
def powerOnState : EngineState :=
  { colonyBaseline :=
      { tempMean := 0, tempStdDev := 0, humidityMean := 0, humidityStdDev := 0
        pressureMean := 0, pressureStdDev := 0, weightMean := 0, weightStdDev := 0
        weightDailyDelta := 0, audioEnergy := fun _ => 0, audioStdDev := fun _ => 0 }
    baselineEstablished := false
    learningSampleCount := 0
    currentSeason := 0
    tempStats := .init, humidityStats := .init, pressureStats := .init
    weightStats := .init, audioStats := fun _ => .init
    lightStats := .init, motionStats := .init
    dailyPatterns := fun _ _ => { activityLevel := 0, tempOffset := 0, humidityOffset := 0, sampleCount := 0 }
    saveCalls := 0 }

/-- `getSeason(month)`, src/learning.cpp lines 293-301. -/
def getSeason (month : ℕ) : ℕ :=
  if month = 12 ∨ month = 1 ∨ month = 2 then 0
  else if 3 ≤ month ∧ month ≤ 5 then 1
  else if 6 ≤ month ∧ month ≤ 8 then 2
  else 3

theorem getSeason_lt_four (month : ℕ) : getSeason month < 4 := by
  unfold getSeason; split_ifs <;> omega

/-- The season index used to address `dailyPatterns[hour][currentSeason]`.
The C code indexes the raw array with the `uint8_t` season; every reachable
state has `currentSeason < 4` (`getSeason` only returns 0-3), where `% 4` is
the identity. -/
def seasonIdx (s : EngineState) : Fin 4 :=
  ⟨s.currentSeason % 4, Nat.mod_lt _ (by norm_num)⟩

/-- `resetLearningSystem()`, src/learning.cpp lines 68-113. -/
def resetLearningSystem (s : EngineState) : EngineState :=
  { s with
    colonyBaseline :=
      { tempMean := 35.0, tempStdDev := 2.0
        humidityMean := 60.0, humidityStdDev := 5.0
        pressureMean := 1013.25, pressureStdDev := 5.0
        weightMean := 0.0, weightStdDev := 1.0, weightDailyDelta := 0.2
        audioEnergy := fun i =>
          if i = 0 then THRESH_B1 else if i = 1 then THRESH_B2
          else if i = 2 then THRESH_B3 else THRESH_B4
        audioStdDev := fun _ => 0.1 }
    audioStats := fun i => (s.audioStats i).reset
    tempStats := s.tempStats.reset
    humidityStats := s.humidityStats.reset
    pressureStats := s.pressureStats.reset
    weightStats := s.weightStats.reset
    lightStats := s.lightStats.reset
    motionStats := s.motionStats.reset
    learningSampleCount := 0
    dailyPatterns := fun _ _ =>
      { activityLevel := 0.5, tempOffset := 0.0, humidityOffset := 0.0, sampleCount := 0 }
    baselineEstablished := false }

/-- The hand-tuned default state (reset applied at power-on). -/
def defaultState : EngineState := resetLearningSystem powerOnState

/-! ## DailyPatternTracker (src/learning.cpp lines 269-288) -/

/-- The per-cell adaptation rate
`min(0.5f, 5.0f / (pattern->sampleCount + 10.0f))`, src/learning.cpp line 275. -/
def patternAdaptRate (sampleCount : ℕ) : ℚ :=
  min 0.5 (5 / ((sampleCount : ℚ) + 10))

/-- `updateDailyPattern(hour, season, activity, temp, humidity)`,
src/learning.cpp lines 269-288.  `sampleCount` is a `uint16_t`, so its
increment wraps modulo 2^16. -/
def updateDailyPattern (s : EngineState) (hour : Fin 24) (season : Fin 4)
    (activity temp humidity : ℚ) : EngineState :=
  let pattern := s.dailyPatterns hour season
  let adaptRate := patternAdaptRate pattern.sampleCount
  let newCell : DailyPattern :=
    { activityLevel := (1 - adaptRate) * pattern.activityLevel + adaptRate * activity
      tempOffset := (1 - adaptRate) * pattern.tempOffset +
        adaptRate * (temp - s.colonyBaseline.tempMean)
      humidityOffset := (1 - adaptRate) * pattern.humidityOffset +
        adaptRate * (humidity - s.colonyBaseline.humidityMean)
      sampleCount := (pattern.sampleCount + 1) % 65536 }
  { s with dailyPatterns := fun h se =>
      if h = hour ∧ se = season then newCell else s.dailyPatterns h se }

/-! ## AnomalyDetector (src/learning.cpp lines 306-366) -/

/-- The divisor of the temperature z-score, src/learning.cpp line 312: the raw
learned `tempStdDev`, with no epsilon floor. -/
def tempAnomalyDenom (s : EngineState) : ℚ := s.colonyBaseline.tempStdDev

/-- The divisor of the humidity z-score, src/learning.cpp line 325: the raw
learned `humidityStdDev`, with no epsilon floor. -/
def humidityAnomalyDenom (s : EngineState) : ℚ := s.colonyBaseline.humidityStdDev

/-- The divisor of the weight z-score, src/learning.cpp line 360: the raw
learned `weightStdDev`, with no epsilon floor. -/
def weightAnomalyDenom (s : EngineState) : ℚ := s.colonyBaseline.weightStdDev

/-- The divisor of the audio band-`i` z-score, src/learning.cpp line 337:
`max(0.01f, colonyBaseline.audioStdDev[i])`. -/
def audioAnomalyDenom (b : SensorBaseline) (i : Fin 4) : ℚ :=
  max 0.01 (b.audioStdDev i)

/-- `isTemperatureAnomaly(temperature, hour)`, src/learning.cpp lines 306-316. -/
def isTemperatureAnomaly (s : EngineState) (temperature : ℚ) (hour : Fin 24) : Bool :=
  let expectedTemp := s.colonyBaseline.tempMean +
    (s.dailyPatterns hour (seasonIdx s)).tempOffset
  let zScore := (temperature - expectedTemp) / tempAnomalyDenom s
  decide (TEMP_ANOMALY_THRESHOLD < |zScore|)

/-- `isHumidityAnomaly(humidity, hour)`, src/learning.cpp lines 321-328. -/
def isHumidityAnomaly (s : EngineState) (humidity : ℚ) (hour : Fin 24) : Bool :=
  let expectedHumidity := s.colonyBaseline.humidityMean +
    (s.dailyPatterns hour (seasonIdx s)).humidityOffset
  let zScore := (humidity - expectedHumidity) / humidityAnomalyDenom s
  decide (HUMIDITY_ANOMALY_THRESHOLD < |zScore|)

/-- `isAudioAnomaly(audioLevels)`, src/learning.cpp lines 333-347: the loop
over the four bands with early `return true` is `List.any` over the bands in
order. -/
def isAudioAnomaly (s : EngineState) (audioLevels : Fin 4 → ℚ) : Bool :=
  (List.finRange 4).any fun i =>
    let zScore := (audioLevels i - s.colonyBaseline.audioEnergy i) /
      audioAnomalyDenom s.colonyBaseline i
    let threshold : ℚ := if i = 0 then 3.0 else 2.5
    decide (threshold < |zScore|)

/-- `isWeightAnomaly(weight, previousWeight)`, src/learning.cpp lines 352-366. -/
def isWeightAnomaly (s : EngineState) (weight previousWeight : ℚ) : Bool :=
  let change := weight - previousWeight
  if |change| > WEIGHT_CHANGE_THRESHOLD * s.colonyBaseline.weightStdDev then true
  else
    let zScore := (weight - s.colonyBaseline.weightMean) / weightAnomalyDenom s
    if |zScore| > WEIGHT_ANOMALY_THRESHOLD then true else false

/-! ## ThresholdAdapter (src/learning.cpp lines 371-405) -/

/-- `getAdaptedTempThresholds`, src/learning.cpp lines 371-382; returns
`(lowThreshold, highThreshold)`. -/
def getAdaptedTempThresholds (s : EngineState) (hour : Fin 24) : ℚ × ℚ :=
  let seasonalOffset := (s.dailyPatterns hour (seasonIdx s)).tempOffset
  (max MIN_SAFE_TEMP (TEMP_ALERT_LOW + (s.colonyBaseline.tempMean - 35.0) +
      seasonalOffset - s.colonyBaseline.tempStdDev),
   min MAX_SAFE_TEMP (TEMP_ALERT_HIGH + (s.colonyBaseline.tempMean - 35.0) +
      seasonalOffset + s.colonyBaseline.tempStdDev))

/-- `getAdaptedHumidityThresholds`, src/learning.cpp lines 387-395; returns
`(lowThreshold, highThreshold)`. -/
def getAdaptedHumidityThresholds (s : EngineState) (hour : Fin 24) : ℚ × ℚ :=
  let seasonalOffset := (s.dailyPatterns hour (seasonIdx s)).humidityOffset
  (max MIN_SAFE_HUMIDITY (HUM_ALERT_LOW + seasonalOffset - s.colonyBaseline.humidityStdDev),
   min MAX_SAFE_HUMIDITY (HUM_ALERT_HIGH + seasonalOffset + s.colonyBaseline.humidityStdDev))

/-- `isBaselineEstablished()`, src/learning.cpp lines 571-573. -/
def isBaselineEstablished (s : EngineState) : Bool := s.baselineEstablished

/-! ## BaselineManager update (src/learning.cpp lines 118-264) -/

/-- `updateBaseline()`, src/learning.cpp lines 193-215: copies each channel's
current `mean()`/`standardDeviation()` into the baseline
(`weightDailyDelta` is not written). -/
def updateBaseline (sqrtQ : ℚ → ℚ) (s : EngineState) : EngineState :=
  { s with colonyBaseline :=
      { s.colonyBaseline with
        tempMean := s.tempStats.mean
        tempStdDev := s.tempStats.standardDeviation sqrtQ
        humidityMean := s.humidityStats.mean
        humidityStdDev := s.humidityStats.standardDeviation sqrtQ
        pressureMean := s.pressureStats.mean
        pressureStdDev := s.pressureStats.standardDeviation sqrtQ
        weightMean := s.weightStats.mean
        weightStdDev := s.weightStats.standardDeviation sqrtQ
        audioEnergy := fun i => (s.audioStats i).mean
        audioStdDev := fun i => (s.audioStats i).standardDeviation sqrtQ } }

/-- `updateBaselineAdaptive()`, src/learning.cpp lines 220-264: exponential
blend toward the current epoch statistics, then reset of the volatile
channels and `partialReset(0.8)` of the weight channel. -/
def updateBaselineAdaptive (sqrtQ : ℚ → ℚ) (s : EngineState) : EngineState :=
  let adaptRate := LEARNING_ADAPTATION_RATE
  let b := s.colonyBaseline
  { s with
    colonyBaseline :=
      { b with
        tempMean := (1 - adaptRate) * b.tempMean + adaptRate * s.tempStats.mean
        tempStdDev := (1 - adaptRate) * b.tempStdDev +
          adaptRate * s.tempStats.standardDeviation sqrtQ
        humidityMean := (1 - adaptRate) * b.humidityMean + adaptRate * s.humidityStats.mean
        humidityStdDev := (1 - adaptRate) * b.humidityStdDev +
          adaptRate * s.humidityStats.standardDeviation sqrtQ
        pressureMean := (1 - adaptRate) * b.pressureMean + adaptRate * s.pressureStats.mean
        weightMean := (1 - adaptRate / 2) * b.weightMean +
          (adaptRate / 2) * s.weightStats.mean
        audioEnergy := fun i =>
          (1 - adaptRate * 2) * b.audioEnergy i + (adaptRate * 2) * (s.audioStats i).mean
        audioStdDev := fun i =>
          (1 - adaptRate) * b.audioStdDev i +
            adaptRate * (s.audioStats i).standardDeviation sqrtQ }
    tempStats := s.tempStats.reset
    humidityStats := s.humidityStats.reset
    pressureStats := s.pressureStats.reset
    audioStats := fun i => (s.audioStats i).reset
    weightStats := s.weightStats.partialReset 0.8 }

/-- One measurement cycle's reading vector plus timestamp-derived values
(arguments of `updateLearningModel`, src/learning.cpp lines 118-120). -/
structure Reading where
  temperature : ℚ
  humidity : ℚ
  pressure : ℚ
  weight : ℚ
  audioEnergy : Fin 4 → ℚ
  accelX : ℚ
  accelY : ℚ
  accelZ : ℚ
  lightLevel : ℚ
  hour : Fin 24
  month : ℕ

/-- The motion magnitude `sqrt(ax² + ay² + az²)`, src/learning.cpp
lines 137-139. -/
def motionMagnitude (sqrtQ : ℚ → ℚ) (r : Reading) : ℚ :=
  sqrtQ (r.accelX * r.accelX + r.accelY * r.accelY + r.accelZ * r.accelZ)

/-- The sampling phase of `updateLearningModel`, src/learning.cpp
lines 122-143: increment the (`uint16_t`, hence modulo 2^16) sample counter
and feed every channel's `RunningStats`. -/
def addCycleSamples (sqrtQ : ℚ → ℚ) (s : EngineState) (r : Reading) : EngineState :=
  { s with
    learningSampleCount := (s.learningSampleCount + 1) % 65536
    tempStats := s.tempStats.addSample r.temperature
    humidityStats := s.humidityStats.addSample r.humidity
    pressureStats := s.pressureStats.addSample r.pressure
    weightStats := s.weightStats.addSample r.weight
    audioStats := fun i => (s.audioStats i).addSample (r.audioEnergy i)
    motionStats := s.motionStats.addSample (motionMagnitude sqrtQ r)
    lightStats := s.lightStats.addSample r.lightLevel }

/-- The activity estimate of src/learning.cpp lines 150-151, evaluated on the
post-sampling state (the just-added motion sample is included in
`motionStats.mean()`, exactly as in the source). -/
def cycleActivity (sqrtQ : ℚ → ℚ) (s1 : EngineState) (r : Reading) : ℚ :=
  (r.audioEnergy 0 / s1.colonyBaseline.audioEnergy 0) * 0.8 +
    (motionMagnitude sqrtQ r / s1.motionStats.mean) * 0.2

/-- The Collecting → Established transition of `updateLearningModel`,
src/learning.cpp lines 156-161. -/
def establishPhase (sqrtQ : ℚ → ℚ) (s : EngineState) : EngineState :=
  if LEARNING_SAMPLES_MIN ≤ s.learningSampleCount ∧ s.baselineEstablished = false then
    { updateBaseline sqrtQ s with
      baselineEstablished := true
      saveCalls := (updateBaseline sqrtQ s).saveCalls + 1 }
  else s

/-- The periodic adaptive-update step of `updateLearningModel`,
src/learning.cpp lines 164-167. -/
def adaptPhase (sqrtQ : ℚ → ℚ) (s : EngineState) : EngineState :=
  if s.baselineEstablished = true ∧
      s.learningSampleCount % LEARNING_UPDATE_INTERVAL = 0 then
    { updateBaselineAdaptive sqrtQ s with
      saveCalls := (updateBaselineAdaptive sqrtQ s).saveCalls + 1 }
  else s

/-- The periodic save of `updateLearningModel`, src/learning.cpp
lines 170-172. -/
def periodicSavePhase (s : EngineState) : EngineState :=
  if s.learningSampleCount % LEARNING_SAVE_INTERVAL = 0 then
    { s with saveCalls := s.saveCalls + 1 }
  else s

/-- `updateLearningModel(...)`, src/learning.cpp lines 118-188, as the
composition of its phases in source order.  Each `saveLearnedParameters()`
call site increments the `saveCalls` instrumentation counter. -/
def updateLearningModel (sqrtQ : ℚ → ℚ) (s : EngineState) (r : Reading) : EngineState :=
  let s1 := addCycleSamples sqrtQ s r
  let season : Fin 4 := ⟨getSeason r.month, getSeason_lt_four r.month⟩
  let s2 := updateDailyPattern s1 r.hour season (cycleActivity sqrtQ s1 r)
    r.temperature r.humidity
  periodicSavePhase (adaptPhase sqrtQ (establishPhase sqrtQ s2))

/-! ## PersistenceCodec (src/learning.cpp lines 410-529)

The binary blob written by `saveLearnedParameters` is, in order: the whole
`SensorBaseline` (17 float fields), the whole `dailyPatterns[24][4]` array
(96 cells of 3 floats + 1 `uint16_t`, row-major: cell `(h, s)` is linear cell
`h*4 + s`), then `learningSampleCount` and `currentSeason`.  It is modelled
at field granularity: field index `i` of the layout is entry `i` of a
`List DatField`, 403 entries in total. -/

/-- One scalar field of the persisted record: a float or an unsigned integer. -/
inductive DatField where
  | flt (q : ℚ)
  | u (n : ℕ)
deriving DecidableEq

/-- The 17 `SensorBaseline` fields in declaration order
(src/learning.h lines 22-34). -/
def baselineFieldAt (b : SensorBaseline) (i : ℕ) : DatField :=
  match i with
  | 0 => .flt b.tempMean
  | 1 => .flt b.tempStdDev
  | 2 => .flt b.humidityMean
  | 3 => .flt b.humidityStdDev
  | 4 => .flt b.pressureMean
  | 5 => .flt b.pressureStdDev
  | 6 => .flt b.weightMean
  | 7 => .flt b.weightStdDev
  | 8 => .flt b.weightDailyDelta
  | 9 => .flt (b.audioEnergy 0)
  | 10 => .flt (b.audioEnergy 1)
  | 11 => .flt (b.audioEnergy 2)
  | 12 => .flt (b.audioEnergy 3)
  | 13 => .flt (b.audioStdDev 0)
  | 14 => .flt (b.audioStdDev 1)
  | 15 => .flt (b.audioStdDev 2)
  | 16 => .flt (b.audioStdDev 3)
  | _ => .u 0

/-- Field `i` of the fixed binary layout of `LEARN.DAT`
(writes of src/learning.cpp lines 420-427): indices 0-16 the baseline,
17-400 the pattern grid (cell `(h, s)` starts at `17 + (h*4+s)*4`),
401 `learningSampleCount`, 402 `currentSeason`. -/
def saveFieldAt (s : EngineState) (i : ℕ) : DatField :=
  if i < 17 then baselineFieldAt s.colonyBaseline i
  else if i < 401 then
    let j := i - 17
    let cell := s.dailyPatterns ⟨j / 16 % 24, Nat.mod_lt _ (by norm_num)⟩
      ⟨j / 4 % 4, Nat.mod_lt _ (by norm_num)⟩
    match j % 4 with
    | 0 => .flt cell.activityLevel
    | 1 => .flt cell.tempOffset
    | 2 => .flt cell.humidityOffset
    | _ => .u cell.sampleCount
  else if i = 401 then .u s.learningSampleCount
  else .u s.currentSeason

/-- The full binary blob written by `saveLearnedParameters`
(src/learning.cpp lines 417-429). -/
def saveBlob (s : EngineState) : List DatField :=
  (List.range 403).map (saveFieldAt s)

/-- A float read at layout position `i`: the stored field if the blob reaches
that far, otherwise the destination keeps its old value (a short
`File.read` leaves the remaining destination bytes unchanged). -/
def readFltAt (blob : List DatField) (i : ℕ) (old : ℚ) : ℚ :=
  match blob[i]? with
  | some (.flt q) => q
  | _ => old

/-- An unsigned integer read at layout position `i`; same short-read
semantics as `readFltAt`. -/
def readNatAt (blob : List DatField) (i : ℕ) (old : ℕ) : ℕ :=
  match blob[i]? with
  | some (.u n) => n
  | _ => old

/-- The `SensorBaseline` read of src/learning.cpp line 502. -/
def loadBaseline (old : SensorBaseline) (blob : List DatField) : SensorBaseline :=
  { tempMean := readFltAt blob 0 old.tempMean
    tempStdDev := readFltAt blob 1 old.tempStdDev
    humidityMean := readFltAt blob 2 old.humidityMean
    humidityStdDev := readFltAt blob 3 old.humidityStdDev
    pressureMean := readFltAt blob 4 old.pressureMean
    pressureStdDev := readFltAt blob 5 old.pressureStdDev
    weightMean := readFltAt blob 6 old.weightMean
    weightStdDev := readFltAt blob 7 old.weightStdDev
    weightDailyDelta := readFltAt blob 8 old.weightDailyDelta
    audioEnergy := fun i => readFltAt blob (9 + i.val) (old.audioEnergy i)
    audioStdDev := fun i => readFltAt blob (13 + i.val) (old.audioStdDev i) }

/-- One `DailyPattern` cell read starting at layout position `base`
(part of the `dailyPatterns` read of src/learning.cpp line 505). -/
def loadCell (old : DailyPattern) (blob : List DatField) (base : ℕ) : DailyPattern :=
  { activityLevel := readFltAt blob base old.activityLevel
    tempOffset := readFltAt blob (base + 1) old.tempOffset
    humidityOffset := readFltAt blob (base + 2) old.humidityOffset
    sampleCount := readNatAt blob (base + 3) old.sampleCount }

/-- `loadLearnedParameters()`, src/learning.cpp lines 489-529.  `file = none`
models "SD card unavailable or LEARN.DAT absent" (return `false`, state
untouched); `file = some blob` models a file that opens, whose reads succeed
as far as the blob reaches (the return values of `File.read` are never
checked in the source), after which the four stats channels are seeded with
`setStats` from the just-read baseline and `true` is returned. -/
def loadLearnedParameters (s : EngineState) (file : Option (List DatField)) :
    Bool × EngineState :=
  match file with
  | none => (false, s)
  | some blob =>
    let b := loadBaseline s.colonyBaseline blob
    (true,
      { s with
        colonyBaseline := b
        dailyPatterns := fun h se =>
          loadCell (s.dailyPatterns h se) blob (17 + (h.val * 4 + se.val) * 4)
        learningSampleCount := readNatAt blob 401 s.learningSampleCount
        currentSeason := readNatAt blob 402 s.currentSeason
        tempStats := s.tempStats.setStats b.tempMean b.tempStdDev
        humidityStats := s.humidityStats.setStats b.humidityMean b.humidityStdDev
        pressureStats := s.pressureStats.setStats b.pressureMean b.pressureStdDev
        weightStats := s.weightStats.setStats b.weightMean b.weightStdDev
        audioStats := fun i => (s.audioStats i).setStats (b.audioEnergy i) (b.audioStdDev i) })

/-- `setupLearning()`, src/learning.cpp lines 40-63: attempt a load from the
power-on state; on success set `baselineEstablished = true`, otherwise reset
to defaults; then derive the season from the RTC month (`none` = RTC not
running, season 0). -/
def setupLearning (file : Option (List DatField)) (rtcMonth : Option ℕ) : EngineState :=
  let r := loadLearnedParameters powerOnState file
  let s2 := if r.1 then { r.2 with baselineEstablished := true }
    else resetLearningSystem r.2
  { s2 with currentSeason := match rtcMonth with | some m => getSeason m | none => 0 }

/-! ## Iterated execution from a reset engine -/

/-- `n` measurement cycles applied to a freshly reset engine. -/
def runFromReset (sqrtQ : ℚ → ℚ) (inputs : ℕ → Reading) : ℕ → EngineState
  | 0 => resetLearningSystem powerOnState
  | n + 1 => updateLearningModel sqrtQ (runFromReset sqrtQ inputs n) (inputs n)

/-- The `RunningStats` state after feeding samples `f 0, …, f (n-1)` into a
fresh estimator. -/
def statsAfter (f : ℕ → ℚ) : ℕ → RunningStats
  | 0 => RunningStats.init
  | n + 1 => (statsAfter f n).addSample (f n)

/-! ## Claim C3: temperature anomaly formula and its strict boundary -/

/-- C3: `isTemperatureAnomaly(value, hour)` computes
`expected = tempMean + pattern[hour][season].tempOffset` and
`z = (value − expected)/tempStdDev` and returns true iff
`|z| > TEMP_ANOMALY_THRESHOLD` (strict); with the default baseline
(`tempMean = 35`, `tempStdDev = 2`, zero pattern offsets, threshold 3) a
reading of 41.0 (`z = 3.0` exactly) is not anomalous while 41.01 is. -/
theorem C3_temperature_anomaly_strict :
    (∀ (s : EngineState) (v : ℚ) (hour : Fin 24),
      isTemperatureAnomaly s v hour =
        decide (TEMP_ANOMALY_THRESHOLD <
          |(v - (s.colonyBaseline.tempMean +
              (s.dailyPatterns hour (seasonIdx s)).tempOffset)) /
            s.colonyBaseline.tempStdDev|)) ∧
    isTemperatureAnomaly defaultState 41.0 12 = false ∧
    isTemperatureAnomaly defaultState 41.01 12 = true := by
  refine ⟨fun s v hour => rfl, ?_, ?_⟩
  · refine decide_eq_false ?_
    simp only [defaultState, resetLearningSystem, powerOnState, seasonIdx,
      tempAnomalyDenom, TEMP_ANOMALY_THRESHOLD, not_lt]
    rw [abs_le]
    constructor <;> norm_num
  · refine decide_eq_true ?_
    simp only [defaultState, resetLearningSystem, powerOnState, seasonIdx,
      tempAnomalyDenom, TEMP_ANOMALY_THRESHOLD]
    rw [lt_abs]
    left
    norm_num

/-! ## Claim C4: partialReset and the immediate mean/variance values -/

/-- C4 counterexample: the claim "partialReset leaves `variance()` unchanged
immediately after the call" is false.  For the state
`count_ = 3, mean_ = 0, M2_ = 2` and `keepRatio = 1/2 ∈ (0,1]`, the variance
is `2/(3−1) = 1` before the call and `0` after it (the count drops to 1, so
the `count > 1` guard of `variance()` fails).  `mean()` is unchanged. -/
theorem C4_counterexample_variance_changes :
    ((RunningStats.mk 3 0 2).partialReset (1/2)).variance ≠
      (RunningStats.mk 3 0 2).variance ∧
    (RunningStats.mk 3 0 2).variance = 1 ∧
    ((RunningStats.mk 3 0 2).partialReset (1/2)).variance = 0 ∧
    ((RunningStats.mk 3 0 2).partialReset (1/2)).mean =
      (RunningStats.mk 3 0 2).mean ∧
    (0 : ℚ) < 1/2 ∧ (1/2 : ℚ) ≤ 1 := by
  have h1 : (RunningStats.mk 3 0 2).partialReset (1/2) = RunningStats.mk 1 0 2 := by
    unfold RunningStats.partialReset
    norm_num
  rw [h1]
  unfold RunningStats.variance RunningStats.mean
  norm_num

/-- C4 amended: for every `RunningStats` state and every `keepRatio`,
`partialReset` leaves `mean()` and the `mean_`/`M2_` fields unchanged, and
sets `count_` to `max(1, ⌊count_ · keepRatio⌋)` when `count_ > 0` (leaving a
zero count at zero); `variance()` is *not* preserved in general, because its
divisor `count_ − 1` changes. -/
theorem C4_partialReset_amended (st : RunningStats) ( keepRatio : ℚ) :
    (st.partialReset keepRatio).mean = st.mean ∧
    (st.partialReset keepRatio).mean_ = st.mean_ ∧
    (st.partialReset keepRatio).M2_ = st.M2_ ∧
    (st.partialReset keepRatio).count_ =
      (if 0 < st.count_ then max 1 ⌊(st.count_ : ℚ) * keepRatio⌋.toNat
       else st.count_) := by
  unfold RunningStats.partialReset RunningStats.mean
  by_cases h : st.count_ > 0
  · have h1 : 0 < max 1 ⌊(st.count_ : ℚ) * keepRatio⌋.toNat :=
      lt_of_lt_of_le Nat.zero_lt_one (le_max_left _ _)
    simp [h, h1]
  · simp [h]

/-! ## Claim C5: epsilon guards on anomaly z-score divisors -/

/-- Default state except that the learned temperature standard deviation has
collapsed to 0. -/
def zeroTempStdState : EngineState :=
  { defaultState with
    colonyBaseline := { defaultState.colonyBaseline with tempStdDev := 0 } }

/-- C5 counterexample: the claim that *every* anomaly classification guards
its z-score divisor with an epsilon floor is false: the temperature
classifier divides by the raw `tempStdDev` (src/learning.cpp line 312), so at
a baseline with `tempStdDev = 0` its divisor is exactly 0 — below any
positive floor such as the audio channels' 0.01. -/
theorem C5_counterexample_unguarded_divisor :
    tempAnomalyDenom zeroTempStdState = 0 ∧
    ¬ ((1 : ℚ)/100 ≤ tempAnomalyDenom zeroTempStdState) := by
  refine ⟨rfl, by norm_num [tempAnomalyDenom, zeroTempStdState]⟩

/-- C5 amended: only the audio band z-scores are guarded with an epsilon
floor — their divisor is `max(0.01, audioStdDev[i]) ≥ 0.01` for every
baseline — while the temperature, humidity and weight classifications divide
by the raw learned standard deviation with no floor. -/
theorem C5_divisor_guard_amended (s : EngineState) (i : Fin 4) :
    (0.01 : ℚ) ≤ audioAnomalyDenom s.colonyBaseline i ∧
    tempAnomalyDenom s = s.colonyBaseline.tempStdDev ∧
    humidityAnomalyDenom s = s.colonyBaseline.humidityStdDev ∧
    weightAnomalyDenom s = s.colonyBaseline.weightStdDev :=
  ⟨le_max_left _ _, rfl, rfl, rfl⟩

/-! ## Claim C7: the per-cell adaptation rate -/

/-- C7: the adaptation rate used by `updateDailyPattern` is
`min(0.5, 5/(sampleCount+10))`: it never exceeds 0.5, is monotonically
non-increasing in `sampleCount`, evaluates to 0.5, 0.25, 0.1 and 0.005 at
sample counts 0, 10, 40 and 990, and is exactly the blend coefficient of
`updateDailyPattern`. -/
theorem C7_adaptation_rate :
    (∀ n : ℕ, patternAdaptRate n ≤ 0.5) ∧
    (∀ m n : ℕ, m ≤ n → patternAdaptRate n ≤ patternAdaptRate m) ∧
    patternAdaptRate 0 = 0.5 ∧ patternAdaptRate 10 = 0.25 ∧
    patternAdaptRate 40 = 0.1 ∧ patternAdaptRate 990 = 0.005 ∧
    (∀ (s : EngineState) (hour : Fin 24) (season : Fin 4) (a t h : ℚ),
      ((updateDailyPattern s hour season a t h).dailyPatterns hour season).activityLevel =
        (1 - patternAdaptRate ((s.dailyPatterns hour season).sampleCount)) *
            (s.dailyPatterns hour season).activityLevel +
          patternAdaptRate ((s.dailyPatterns hour season).sampleCount) * a) := by
  refine ⟨fun n => min_le_left _ _, ?_, by norm_num [patternAdaptRate, min_def],
    by norm_num [patternAdaptRate, min_def], by norm_num [patternAdaptRate, min_def],
    by norm_num [patternAdaptRate, min_def], ?_⟩
  · intro m n hmn
    refine min_le_min le_rfl ?_
    rw [div_le_div_iff₀ (by positivity) (by positivity)]
    have hc : (m : ℚ) ≤ (n : ℚ) := by exact_mod_cast hmn
    nlinarith
  · intro s hour season a t h
    simp [updateDailyPattern]

/-- C7 witness: the monotonicity conjunct applied at the concrete pair
`10 ≤ 40`. -/
theorem C7_adaptation_rate_witness : patternAdaptRate 40 ≤ patternAdaptRate 10 :=
  C7_adaptation_rate.2.1 10 40 (by norm_num)

/-! ## Claim C8: adapted thresholds never cross the survival bounds -/

/-- C8: for every state and hour, `getAdaptedTempThresholds` returns a low
threshold ≥ `MIN_SAFE_TEMP` and a high threshold ≤ `MAX_SAFE_TEMP`, and
`getAdaptedHumidityThresholds` a low ≥ `MIN_SAFE_HUMIDITY` and a high
≤ `MAX_SAFE_HUMIDITY`, however the learned baseline has drifted. -/
theorem C8_thresholds_clamped (s : EngineState) (hour : Fin 24) :
    MIN_SAFE_TEMP ≤ (getAdaptedTempThresholds s hour).1 ∧
    (getAdaptedTempThresholds s hour).2 ≤ MAX_SAFE_TEMP ∧
    MIN_SAFE_HUMIDITY ≤ (getAdaptedHumidityThresholds s hour).1 ∧
    (getAdaptedHumidityThresholds s hour).2 ≤ MAX_SAFE_HUMIDITY :=
  ⟨le_max_left _ _, min_le_left _ _, le_max_left _ _, min_le_left _ _⟩

/-! ## Claim C1: binary round trip of the persisted state -/

theorem saveBlob_getElem (s : EngineState) (i : ℕ) (h : i < 403) :
    (saveBlob s)[i]? = some (saveFieldAt s i) := by
  simp [saveBlob, List.getElem?_map, List.getElem?_range, h]

theorem readFltAt_saveBlob_flt (s : EngineState) (i : ℕ) (h : i < 403) (q old : ℚ)
    (hf : saveFieldAt s i = .flt q) : readFltAt (saveBlob s) i old = q := by
  rw [readFltAt, saveBlob_getElem s i h, hf]

theorem readNatAt_saveBlob_u (s : EngineState) (i : ℕ) (h : i < 403) (n old : ℕ)
    (hf : saveFieldAt s i = .u n) : readNatAt (saveBlob s) i old = n := by
  rw [readNatAt, saveBlob_getElem s i h, hf]

theorem saveFieldAt_cell_act (s : EngineState) (h : Fin 24) (se : Fin 4) :
    saveFieldAt s (17 + (h.val * 4 + se.val) * 4) =
      .flt ((s.dailyPatterns h se).activityLevel) := by
  have hh := h.isLt
  have hs := se.isLt
  unfold saveFieldAt
  rw [if_neg (by omega), if_pos (by omega)]
  have e1 : (17 + (h.val * 4 + se.val) * 4 - 17) / 16 % 24 = h.val := by omega
  have e2 : (17 + (h.val * 4 + se.val) * 4 - 17) / 4 % 4 = se.val := by omega
  have e3 : (17 + (h.val * 4 + se.val) * 4 - 17) % 4 = 0 := by omega
  simp only [e1, e2, e3, Fin.eta]

theorem saveFieldAt_cell_tempOff (s : EngineState) (h : Fin 24) (se : Fin 4) :
    saveFieldAt s (17 + (h.val * 4 + se.val) * 4 + 1) =
      .flt ((s.dailyPatterns h se).tempOffset) := by
  have hh := h.isLt
  have hs := se.isLt
  unfold saveFieldAt
  rw [if_neg (by omega), if_pos (by omega)]
  have e1 : (17 + (h.val * 4 + se.val) * 4 + 1 - 17) / 16 % 24 = h.val := by omega
  have e2 : (17 + (h.val * 4 + se.val) * 4 + 1 - 17) / 4 % 4 = se.val := by omega
  have e3 : (17 + (h.val * 4 + se.val) * 4 + 1 - 17) % 4 = 1 := by omega
  simp only [e1, e2, e3, Fin.eta]

theorem saveFieldAt_cell_humOff (s : EngineState) (h : Fin 24) (se : Fin 4) :
    saveFieldAt s (17 + (h.val * 4 + se.val) * 4 + 2) =
      .flt ((s.dailyPatterns h se).humidityOffset) := by
  have hh := h.isLt
  have hs := se.isLt
  unfold saveFieldAt
  rw [if_neg (by omega), if_pos (by omega)]
  have e1 : (17 + (h.val * 4 + se.val) * 4 + 2 - 17) / 16 % 24 = h.val := by omega
  have e2 : (17 + (h.val * 4 + se.val) * 4 + 2 - 17) / 4 % 4 = se.val := by omega
  have e3 : (17 + (h.val * 4 + se.val) * 4 + 2 - 17) % 4 = 2 := by omega
  simp only [e1, e2, e3, Fin.eta]

theorem saveFieldAt_cell_count (s : EngineState) (h : Fin 24) (se : Fin 4) :
    saveFieldAt s (17 + (h.val * 4 + se.val) * 4 + 3) =
      .u ((s.dailyPatterns h se).sampleCount) := by
  have hh := h.isLt
  have hs := se.isLt
  unfold saveFieldAt
  rw [if_neg (by omega), if_pos (by omega)]
  have e1 : (17 + (h.val * 4 + se.val) * 4 + 3 - 17) / 16 % 24 = h.val := by omega
  have e2 : (17 + (h.val * 4 + se.val) * 4 + 3 - 17) / 4 % 4 = se.val := by omega
  have e3 : (17 + (h.val * 4 + se.val) * 4 + 3 - 17) % 4 = 3 := by omega
  simp only [e1, e2, e3, Fin.eta]

theorem loadCell_saveBlob (s : EngineState) (old : DailyPattern) (h : Fin 24) (se : Fin 4) :
    loadCell old (saveBlob s) (17 + (h.val * 4 + se.val) * 4) = s.dailyPatterns h se := by
  have hh := h.isLt
  have hs := se.isLt
  unfold loadCell
  rw [readFltAt_saveBlob_flt s _ (by omega) _ _ (saveFieldAt_cell_act s h se),
    readFltAt_saveBlob_flt s _ (by omega) _ _ (saveFieldAt_cell_tempOff s h se),
    readFltAt_saveBlob_flt s _ (by omega) _ _ (saveFieldAt_cell_humOff s h se),
    readNatAt_saveBlob_u s _ (by omega) _ _ (saveFieldAt_cell_count s h se)]

theorem loadBaseline_saveBlob (s : EngineState) (old : SensorBaseline) :
    loadBaseline old (saveBlob s) = s.colonyBaseline := by
  have hflt : ∀ (i : ℕ) (q old2 : ℚ), i < 403 → saveFieldAt s i = .flt q →
      readFltAt (saveBlob s) i old2 = q := fun i q old2 h hf =>
    readFltAt_saveBlob_flt s i h q old2 hf
  unfold loadBaseline
  refine SensorBaseline.ext ?_ ?_ ?_ ?_ ?_ ?_ ?_ ?_ ?_ ?_ ?_
  · exact hflt 0 s.colonyBaseline.tempMean old.tempMean (by decide) rfl
  · exact hflt 1 s.colonyBaseline.tempStdDev old.tempStdDev (by decide) rfl
  · exact hflt 2 s.colonyBaseline.humidityMean old.humidityMean (by decide) rfl
  · exact hflt 3 s.colonyBaseline.humidityStdDev old.humidityStdDev (by decide) rfl
  · exact hflt 4 s.colonyBaseline.pressureMean old.pressureMean (by decide) rfl
  · exact hflt 5 s.colonyBaseline.pressureStdDev old.pressureStdDev (by decide) rfl
  · exact hflt 6 s.colonyBaseline.weightMean old.weightMean (by decide) rfl
  · exact hflt 7 s.colonyBaseline.weightStdDev old.weightStdDev (by decide) rfl
  · exact hflt 8 s.colonyBaseline.weightDailyDelta old.weightDailyDelta (by decide) rfl
  · funext i
    fin_cases i
    · exact hflt 9 (s.colonyBaseline.audioEnergy 0) (old.audioEnergy 0) (by decide) rfl
    · exact hflt 10 (s.colonyBaseline.audioEnergy 1) (old.audioEnergy 1) (by decide) rfl
    · exact hflt 11 (s.colonyBaseline.audioEnergy 2) (old.audioEnergy 2) (by decide) rfl
    · exact hflt 12 (s.colonyBaseline.audioEnergy 3) (old.audioEnergy 3) (by decide) rfl
  · funext i
    fin_cases i
    · exact hflt 13 (s.colonyBaseline.audioStdDev 0) (old.audioStdDev 0) (by decide) rfl
    · exact hflt 14 (s.colonyBaseline.audioStdDev 1) (old.audioStdDev 1) (by decide) rfl
    · exact hflt 15 (s.colonyBaseline.audioStdDev 2) (old.audioStdDev 2) (by decide) rfl
    · exact hflt 16 (s.colonyBaseline.audioStdDev 3) (old.audioStdDev 3) (by decide) rfl

/-- C1: saving the engine state and loading the blob back into any fresh
instance reproduces the baseline, all 96 pattern cells, the sample count and
the season exactly, and the load reports success (binary path). -/
theorem C1_binary_round_trip (s fresh : EngineState) :
    (loadLearnedParameters fresh (some (saveBlob s))).1 = true ∧
    (loadLearnedParameters fresh (some (saveBlob s))).2.colonyBaseline = s.colonyBaseline ∧
    (loadLearnedParameters fresh (some (saveBlob s))).2.dailyPatterns = s.dailyPatterns ∧
    (loadLearnedParameters fresh (some (saveBlob s))).2.learningSampleCount =
      s.learningSampleCount ∧
    (loadLearnedParameters fresh (some (saveBlob s))).2.currentSeason = s.currentSeason := by
  refine ⟨rfl, ?_, ?_, ?_, ?_⟩
  · exact loadBaseline_saveBlob s fresh.colonyBaseline
  · funext h se
    exact loadCell_saveBlob s _ h se
  · exact readNatAt_saveBlob_u s 401 (by omega) s.learningSampleCount
      fresh.learningSampleCount rfl
  · exact readNatAt_saveBlob_u s 402 (by omega) s.currentSeason fresh.currentSeason rfl

/-! ## Claim C6: short/corrupt blob handling of loadLearnedParameters -/

/-- C6, failing input: a `LEARN.DAT` truncated to a single field (the value
99 where `tempMean` is stored).  `loadLearnedParameters` never checks the
number of bytes actually read (src/learning.cpp lines 502-509), so the load
*succeeds* (`true`) and adopts `tempMean = 99` while every later field — here
`tempStdDev` — keeps its previous in-memory value: the engine is left
partially populated, which the spec forbids. -/
theorem C6_truncated_blob_partially_adopted :
    (loadLearnedParameters defaultState (some [DatField.flt 99])).1 = true ∧
    (loadLearnedParameters defaultState (some [DatField.flt 99])).2.colonyBaseline.tempMean
      = 99 ∧
    (loadLearnedParameters defaultState (some [DatField.flt 99])).2.colonyBaseline.tempMean
      ≠ defaultState.colonyBaseline.tempMean ∧
    (loadLearnedParameters defaultState (some [DatField.flt 99])).2.colonyBaseline.tempStdDev
      = defaultState.colonyBaseline.tempStdDev := by
  refine ⟨rfl, rfl, ?_, rfl⟩
  intro h
  rw [show (loadLearnedParameters defaultState
        (some [DatField.flt 99])).2.colonyBaseline.tempMean = (99 : ℚ) from rfl,
    show defaultState.colonyBaseline.tempMean = (35.0 : ℚ) from rfl] at h
  norm_num at h

/-! ## Claim C9: a successful restore always marks the baseline established -/

/-- C9: whenever the startup load succeeds, `setupLearning` sets
`baselineEstablished = true` (src/learning.cpp lines 44-46) — the restored
`sampleCount` is adopted as-is and never compared against
`LEARNING_SAMPLES_MIN`, so a restored engine never re-enters the Collecting
phase. -/
theorem C9_successful_restore_establishes (file : Option (List DatField))
    (rtcMonth : Option ℕ)
    (h : (loadLearnedParameters powerOnState file).1 = true) :
    isBaselineEstablished (setupLearning file rtcMonth) = true ∧
    (setupLearning file rtcMonth).learningSampleCount =
      (loadLearnedParameters powerOnState file).2.learningSampleCount := by
  cases file with
  | none => simp [loadLearnedParameters] at h
  | some blob => exact ⟨rfl, rfl⟩

/-- C9 witness: an empty (zero-byte) `LEARN.DAT` opens and "reads"
successfully, so the restore succeeds with the restored sample count 0 — far
below `LEARNING_SAMPLES_MIN` — and the baseline is nevertheless marked
established. -/
theorem C9_successful_restore_establishes_witness :
    isBaselineEstablished (setupLearning (some []) none) = true ∧
    (setupLearning (some []) none).learningSampleCount < LEARNING_SAMPLES_MIN :=
  ⟨(C9_successful_restore_establishes (some []) none rfl).1, by decide⟩

/-! ## Claim C10: updateDailyPattern frame and increment -/

/-- A state whose `(0, 0)` pattern cell has reached the maximal `uint16_t`
sample count. -/
def fullCellState : EngineState :=
  { defaultState with
    dailyPatterns := fun h se =>
      if h = 0 ∧ se = 0 then
        { defaultState.dailyPatterns h se with sampleCount := 65535 }
      else defaultState.dailyPatterns h se }

/-- C10 counterexample: at a cell whose `uint16_t` `sampleCount` is 65535,
`updateDailyPattern` wraps the counter to 0 instead of incrementing it by
exactly 1. -/
theorem C10_counterexample_uint16_wrap :
    ((updateDailyPattern fullCellState 0 0 0.5 35 60).dailyPatterns 0 0).sampleCount = 0 ∧
    (fullCellState.dailyPatterns 0 0).sampleCount = 65535 ∧
    ((updateDailyPattern fullCellState 0 0 0.5 35 60).dailyPatterns 0 0).sampleCount ≠
      (fullCellState.dailyPatterns 0 0).sampleCount + 1 := by
  refine ⟨?_, by decide, ?_⟩ <;> decide

/-- C10 amended: `updateDailyPattern(h, s, activity, temp, humidity)` mutates
only the pattern cell at `(h, s)` — blending its three level/offset fields
with the cell's adaptation rate and incrementing its `sampleCount` by 1
modulo 2^16 (the `uint16_t` wraps from 65535 to 0) — while all other 95
cells and every field of `SensorBaseline` remain unchanged. -/
theorem C10_pattern_update_frame (s : EngineState) (hour : Fin 24) (season : Fin 4)
    (activity temp humidity : ℚ) :
    (∀ (h : Fin 24) (se : Fin 4), h ≠ hour ∨ se ≠ season →
      (updateDailyPattern s hour season activity temp humidity).dailyPatterns h se =
        s.dailyPatterns h se) ∧
    (updateDailyPattern s hour season activity temp humidity).colonyBaseline =
      s.colonyBaseline ∧
    ((updateDailyPattern s hour season activity temp humidity).dailyPatterns hour
        season).sampleCount = ((s.dailyPatterns hour season).sampleCount + 1) % 65536 ∧
    ((updateDailyPattern s hour season activity temp humidity).dailyPatterns hour
        season).activityLevel =
      (1 - patternAdaptRate ((s.dailyPatterns hour season).sampleCount)) *
          (s.dailyPatterns hour season).activityLevel +
        patternAdaptRate ((s.dailyPatterns hour season).sampleCount) * activity ∧
    ((updateDailyPattern s hour season activity temp humidity).dailyPatterns hour
        season).tempOffset =
      (1 - patternAdaptRate ((s.dailyPatterns hour season).sampleCount)) *
          (s.dailyPatterns hour season).tempOffset +
        patternAdaptRate ((s.dailyPatterns hour season).sampleCount) *
          (temp - s.colonyBaseline.tempMean) ∧
    ((updateDailyPattern s hour season activity temp humidity).dailyPatterns hour
        season).humidityOffset =
      (1 - patternAdaptRate ((s.dailyPatterns hour season).sampleCount)) *
          (s.dailyPatterns hour season).humidityOffset +
        patternAdaptRate ((s.dailyPatterns hour season).sampleCount) *
          (humidity - s.colonyBaseline.humidityMean) := by
  refine ⟨?_, rfl, ?_, ?_, ?_, ?_⟩
  · intro h se hne
    simp only [updateDailyPattern]
    exact if_neg fun hc => hne.elim (fun hh => hh hc.1) (fun hs => hs hc.2)
  all_goals simp [updateDailyPattern]

/-- C10 witness: the frame conjunct applied at a concrete state — updating
cell `(0, 0)` leaves cell `(1, 0)` untouched. -/
theorem C10_pattern_update_frame_witness :
    (updateDailyPattern defaultState 0 0 0.5 35 60).dailyPatterns 1 0 =
      defaultState.dailyPatterns 1 0 :=
  (C10_pattern_update_frame defaultState 0 0 0.5 35 60).1 1 0 (Or.inl (by decide))

/-! ## Claim C2: the Collecting → Established transition -/

theorem runFromReset_succ (sqrtQ : ℚ → ℚ) (inputs : ℕ → Reading) (n : ℕ) :
    runFromReset sqrtQ inputs (n + 1) =
      updateLearningModel sqrtQ (runFromReset sqrtQ inputs n) (inputs n) := rfl

theorem establishPhase_learningSampleCount (sqrtQ : ℚ → ℚ) (t : EngineState) :
    (establishPhase sqrtQ t).learningSampleCount = t.learningSampleCount := by
  unfold establishPhase
  split_ifs <;> rfl

theorem establishPhase_of_low (sqrtQ : ℚ → ℚ) (t : EngineState)
    (hc : ¬ LEARNING_SAMPLES_MIN ≤ t.learningSampleCount) :
    establishPhase sqrtQ t = t :=
  if_neg fun hx => hc hx.1

theorem establishPhase_fires (sqrtQ : ℚ → ℚ) (t : EngineState)
    (hc : LEARNING_SAMPLES_MIN ≤ t.learningSampleCount)
    (hb : t.baselineEstablished = false) :
    establishPhase sqrtQ t =
      { updateBaseline sqrtQ t with
        baselineEstablished := true
        saveCalls := (updateBaseline sqrtQ t).saveCalls + 1 } :=
  if_pos ⟨hc, hb⟩

theorem establishPhase_baselineEstablished (sqrtQ : ℚ → ℚ) (t : EngineState) :
    (establishPhase sqrtQ t).baselineEstablished =
      (t.baselineEstablished || decide (LEARNING_SAMPLES_MIN ≤ t.learningSampleCount)) := by
  unfold establishPhase
  split_ifs with h
  · simp [h.1, h.2, updateBaseline]
  · cases hb : t.baselineEstablished <;> simp_all

theorem adaptPhase_learningSampleCount (sqrtQ : ℚ → ℚ) (t : EngineState) :
    (adaptPhase sqrtQ t).learningSampleCount = t.learningSampleCount := by
  unfold adaptPhase
  split_ifs <;> rfl

theorem adaptPhase_baselineEstablished (sqrtQ : ℚ → ℚ) (t : EngineState) :
    (adaptPhase sqrtQ t).baselineEstablished = t.baselineEstablished := by
  unfold adaptPhase
  split_ifs <;> rfl

theorem adaptPhase_skip (sqrtQ : ℚ → ℚ) (t : EngineState)
    (hb : t.baselineEstablished = false) : adaptPhase sqrtQ t = t :=
  if_neg fun hx => by rw [hb] at hx; exact Bool.false_ne_true hx.1

theorem adaptPhase_fires (sqrtQ : ℚ → ℚ) (t : EngineState)
    (hb : t.baselineEstablished = true)
    (hu : t.learningSampleCount % LEARNING_UPDATE_INTERVAL = 0) :
    adaptPhase sqrtQ t =
      { updateBaselineAdaptive sqrtQ t with
        saveCalls := (updateBaselineAdaptive sqrtQ t).saveCalls + 1 } :=
  if_pos ⟨hb, hu⟩

theorem periodicSavePhase_keeps (t : EngineState) :
    (periodicSavePhase t).colonyBaseline = t.colonyBaseline ∧
    (periodicSavePhase t).baselineEstablished = t.baselineEstablished ∧
    (periodicSavePhase t).learningSampleCount = t.learningSampleCount ∧
    (periodicSavePhase t).tempStats = t.tempStats ∧
    (periodicSavePhase t).humidityStats = t.humidityStats ∧
    (periodicSavePhase t).pressureStats = t.pressureStats ∧
    (periodicSavePhase t).weightStats = t.weightStats ∧
    (periodicSavePhase t).audioStats = t.audioStats ∧
    (periodicSavePhase t).dailyPatterns = t.dailyPatterns := by
  unfold periodicSavePhase
  split_ifs <;> exact ⟨rfl, rfl, rfl, rfl, rfl, rfl, rfl, rfl, rfl⟩

theorem periodicSavePhase_saveCalls_le (t : EngineState) :
    t.saveCalls ≤ (periodicSavePhase t).saveCalls := by
  unfold periodicSavePhase
  split_ifs
  · exact Nat.le_succ _
  · exact Nat.le_refl _

theorem updateLearningModel_learningSampleCount (sqrtQ : ℚ → ℚ) (s : EngineState)
    (r : Reading) :
    (updateLearningModel sqrtQ s r).learningSampleCount =
      (s.learningSampleCount + 1) % 65536 := by
  simp only [updateLearningModel]
  rw [(periodicSavePhase_keeps _).2.2.1, adaptPhase_learningSampleCount,
    establishPhase_learningSampleCount]
  rfl

theorem updateLearningModel_baselineEstablished (sqrtQ : ℚ → ℚ) (s : EngineState)
    (r : Reading) :
    (updateLearningModel sqrtQ s r).baselineEstablished =
      (s.baselineEstablished ||
        decide (LEARNING_SAMPLES_MIN ≤ (s.learningSampleCount + 1) % 65536)) := by
  simp only [updateLearningModel]
  rw [(periodicSavePhase_keeps _).2.1, adaptPhase_baselineEstablished,
    establishPhase_baselineEstablished]
  rfl

theorem updateLearningModel_collecting (sqrtQ : ℚ → ℚ) (s : EngineState) (r : Reading)
    (hcnt : (s.learningSampleCount + 1) % 65536 < LEARNING_SAMPLES_MIN)
    (hest : s.baselineEstablished = false) :
    (updateLearningModel sqrtQ s r).tempStats = s.tempStats.addSample r.temperature ∧
    (updateLearningModel sqrtQ s r).humidityStats = s.humidityStats.addSample r.humidity ∧
    (updateLearningModel sqrtQ s r).pressureStats = s.pressureStats.addSample r.pressure ∧
    (updateLearningModel sqrtQ s r).weightStats = s.weightStats.addSample r.weight ∧
    (updateLearningModel sqrtQ s r).audioStats =
      (fun i => (s.audioStats i).addSample (r.audioEnergy i)) := by
  simp only [updateLearningModel]
  rw [establishPhase_of_low _ _ (by
      show ¬ LEARNING_SAMPLES_MIN ≤ (s.learningSampleCount + 1) % 65536
      omega),
    adaptPhase_skip _ _ (by
      show s.baselineEstablished = false
      exact hest)]
  have k := periodicSavePhase_keeps (updateDailyPattern (addCycleSamples sqrtQ s r)
    r.hour ⟨getSeason r.month, getSeason_lt_four r.month⟩
    (cycleActivity sqrtQ (addCycleSamples sqrtQ s r) r) r.temperature r.humidity)
  exact ⟨k.2.2.2.1, k.2.2.2.2.1, k.2.2.2.2.2.1, k.2.2.2.2.2.2.1, k.2.2.2.2.2.2.2.1⟩

theorem updateLearningModel_establishes (sqrtQ : ℚ → ℚ) (s : EngineState) (r : Reading)
    (hcnt : (s.learningSampleCount + 1) % 65536 = LEARNING_SAMPLES_MIN)
    (hest : s.baselineEstablished = false) :
    (updateLearningModel sqrtQ s r).baselineEstablished = true ∧
    (updateLearningModel sqrtQ s r).colonyBaseline.tempMean =
      (s.tempStats.addSample r.temperature).mean ∧
    (updateLearningModel sqrtQ s r).colonyBaseline.tempStdDev =
      (s.tempStats.addSample r.temperature).standardDeviation sqrtQ ∧
    (updateLearningModel sqrtQ s r).colonyBaseline.humidityMean =
      (s.humidityStats.addSample r.humidity).mean ∧
    (updateLearningModel sqrtQ s r).colonyBaseline.humidityStdDev =
      (s.humidityStats.addSample r.humidity).standardDeviation sqrtQ ∧
    (updateLearningModel sqrtQ s r).colonyBaseline.pressureMean =
      (s.pressureStats.addSample r.pressure).mean ∧
    (updateLearningModel sqrtQ s r).colonyBaseline.pressureStdDev =
      (s.pressureStats.addSample r.pressure).standardDeviation sqrtQ ∧
    (updateLearningModel sqrtQ s r).colonyBaseline.weightMean =
      (s.weightStats.addSample r.weight).mean ∧
    (updateLearningModel sqrtQ s r).colonyBaseline.weightStdDev =
      (s.weightStats.addSample r.weight).standardDeviation sqrtQ ∧
    (updateLearningModel sqrtQ s r).colonyBaseline.audioEnergy =
      (fun i => ((s.audioStats i).addSample (r.audioEnergy i)).mean) ∧
    (updateLearningModel sqrtQ s r).colonyBaseline.audioStdDev =
      (fun i => ((s.audioStats i).addSample (r.audioEnergy i)).standardDeviation sqrtQ) ∧
    s.saveCalls < (updateLearningModel sqrtQ s r).saveCalls := by
  simp only [updateLearningModel]
  rw [establishPhase_fires _ _ (by
      show LEARNING_SAMPLES_MIN ≤ (s.learningSampleCount + 1) % 65536
      omega) (by
      show s.baselineEstablished = false
      exact hest),
    adaptPhase_fires _ _ rfl (by
      show (s.learningSampleCount + 1) % 65536 % LEARNING_UPDATE_INTERVAL = 0
      rw [hcnt]
      decide)]
  refine ⟨?_, ?_, ?_, ?_, ?_, ?_, ?_, ?_, ?_, ?_, ?_, ?_⟩
  · rw [(periodicSavePhase_keeps _).2.1]
    rfl
  · rw [congrArg SensorBaseline.tempMean (periodicSavePhase_keeps _).1]
    show (1 - LEARNING_ADAPTATION_RATE) * (s.tempStats.addSample r.temperature).mean +
        LEARNING_ADAPTATION_RATE * (s.tempStats.addSample r.temperature).mean =
      (s.tempStats.addSample r.temperature).mean
    ring
  · rw [congrArg SensorBaseline.tempStdDev (periodicSavePhase_keeps _).1]
    show (1 - LEARNING_ADAPTATION_RATE) *
          (s.tempStats.addSample r.temperature).standardDeviation sqrtQ +
        LEARNING_ADAPTATION_RATE *
          (s.tempStats.addSample r.temperature).standardDeviation sqrtQ =
      (s.tempStats.addSample r.temperature).standardDeviation sqrtQ
    ring
  · rw [congrArg SensorBaseline.humidityMean (periodicSavePhase_keeps _).1]
    show (1 - LEARNING_ADAPTATION_RATE) * (s.humidityStats.addSample r.humidity).mean +
        LEARNING_ADAPTATION_RATE * (s.humidityStats.addSample r.humidity).mean =
      (s.humidityStats.addSample r.humidity).mean
    ring
  · rw [congrArg SensorBaseline.humidityStdDev (periodicSavePhase_keeps _).1]
    show (1 - LEARNING_ADAPTATION_RATE) *
          (s.humidityStats.addSample r.humidity).standardDeviation sqrtQ +
        LEARNING_ADAPTATION_RATE *
          (s.humidityStats.addSample r.humidity).standardDeviation sqrtQ =
      (s.humidityStats.addSample r.humidity).standardDeviation sqrtQ
    ring
  · rw [congrArg SensorBaseline.pressureMean (periodicSavePhase_keeps _).1]
    show (1 - LEARNING_ADAPTATION_RATE) * (s.pressureStats.addSample r.pressure).mean +
        LEARNING_ADAPTATION_RATE * (s.pressureStats.addSample r.pressure).mean =
      (s.pressureStats.addSample r.pressure).mean
    ring
  · rw [congrArg SensorBaseline.pressureStdDev (periodicSavePhase_keeps _).1]
    rfl
  · rw [congrArg SensorBaseline.weightMean (periodicSavePhase_keeps _).1]
    show (1 - LEARNING_ADAPTATION_RATE / 2) * (s.weightStats.addSample r.weight).mean +
        LEARNING_ADAPTATION_RATE / 2 * (s.weightStats.addSample r.weight).mean =
      (s.weightStats.addSample r.weight).mean
    ring
  · rw [congrArg SensorBaseline.weightStdDev (periodicSavePhase_keeps _).1]
    rfl
  · rw [congrArg SensorBaseline.audioEnergy (periodicSavePhase_keeps _).1]
    funext i
    show (1 - LEARNING_ADAPTATION_RATE * 2) *
          ((s.audioStats i).addSample (r.audioEnergy i)).mean +
        LEARNING_ADAPTATION_RATE * 2 *
          ((s.audioStats i).addSample (r.audioEnergy i)).mean =
      ((s.audioStats i).addSample (r.audioEnergy i)).mean
    ring
  · rw [congrArg SensorBaseline.audioStdDev (periodicSavePhase_keeps _).1]
    funext i
    show (1 - LEARNING_ADAPTATION_RATE) *
          ((s.audioStats i).addSample (r.audioEnergy i)).standardDeviation sqrtQ +
        LEARNING_ADAPTATION_RATE *
          ((s.audioStats i).addSample (r.audioEnergy i)).standardDeviation sqrtQ =
      ((s.audioStats i).addSample (r.audioEnergy i)).standardDeviation sqrtQ
    ring
  · refine lt_of_lt_of_le ?_ (periodicSavePhase_saveCalls_le _)
    show s.saveCalls < s.saveCalls + 1 + 1
    omega

theorem runFromReset_count (sqrtQ : ℚ → ℚ) (inputs : ℕ → Reading) (n : ℕ) :
    (runFromReset sqrtQ inputs n).learningSampleCount = n % 65536 := by
  induction n with
  | zero => rfl
  | succ n ih =>
    rw [runFromReset_succ, updateLearningModel_learningSampleCount, ih]
    omega

theorem runFromReset_established (sqrtQ : ℚ → ℚ) (inputs : ℕ → Reading) (n : ℕ) :
    (runFromReset sqrtQ inputs n).baselineEstablished =
      decide (LEARNING_SAMPLES_MIN ≤ n) := by
  induction n with
  | zero => rfl
  | succ n ih =>
    rw [runFromReset_succ, updateLearningModel_baselineEstablished, ih,
      runFromReset_count]
    simp only [LEARNING_SAMPLES_MIN] at *
    by_cases h : 100 ≤ n
    · have h1 : 100 ≤ n + 1 := by omega
      simp [h, h1]
    · have hn : n < 100 := by omega
      have e : (n % 65536 + 1) % 65536 = n + 1 := by omega
      rw [e]
      simp [h]

theorem runFromReset_collecting_stats (sqrtQ : ℚ → ℚ) (inputs : ℕ → Reading) (n : ℕ)
    (hn : n < LEARNING_SAMPLES_MIN) :
    (runFromReset sqrtQ inputs n).tempStats =
      statsAfter (fun k => (inputs k).temperature) n ∧
    (runFromReset sqrtQ inputs n).humidityStats =
      statsAfter (fun k => (inputs k).humidity) n ∧
    (runFromReset sqrtQ inputs n).pressureStats =
      statsAfter (fun k => (inputs k).pressure) n ∧
    (runFromReset sqrtQ inputs n).weightStats =
      statsAfter (fun k => (inputs k).weight) n ∧
    ∀ i : Fin 4, (runFromReset sqrtQ inputs n).audioStats i =
      statsAfter (fun k => (inputs k).audioEnergy i) n := by
  induction n with
  | zero => exact ⟨rfl, rfl, rfl, rfl, fun i => rfl⟩
  | succ n ih =>
    simp only [LEARNING_SAMPLES_MIN] at hn ih
    obtain ⟨h1, h2, h3, h4, h5⟩ := ih (by omega)
    have hcnt : ((runFromReset sqrtQ inputs n).learningSampleCount + 1) % 65536 <
        LEARNING_SAMPLES_MIN := by
      rw [runFromReset_count]
      simp only [LEARNING_SAMPLES_MIN]
      omega
    have hest : (runFromReset sqrtQ inputs n).baselineEstablished = false := by
      rw [runFromReset_established]
      simp only [LEARNING_SAMPLES_MIN, decide_eq_false_iff_not]
      omega
    obtain ⟨c1, c2, c3, c4, c5⟩ :=
      updateLearningModel_collecting sqrtQ (runFromReset sqrtQ inputs n) (inputs n)
        hcnt hest
    rw [runFromReset_succ]
    refine ⟨?_, ?_, ?_, ?_, ?_⟩
    · rw [c1, h1]; rfl
    · rw [c2, h2]; rfl
    · rw [c3, h3]; rfl
    · rw [c4, h4]; rfl
    · intro i
      rw [c5]
      show ((runFromReset sqrtQ inputs n).audioStats i).addSample
        ((inputs n).audioEnergy i) = _
      rw [h5 i]
      rfl

/-- C2: from a freshly reset engine, `isBaselineEstablished` is false for
every sample count below `LEARNING_SAMPLES_MIN` and true from
`LEARNING_SAMPLES_MIN` on (the Collecting → Established transition fires
exactly once, at the first call whose incremented `sampleCount` reaches the
minimum); that call copies every channel's running `mean()` /
`standardDeviation()` — the statistics of the first `LEARNING_SAMPLES_MIN`
samples — into `SensorBaseline`, and triggers a save (`saveCalls` strictly
increases across the call). -/
theorem C2_collecting_to_established (sqrtQ : ℚ → ℚ) (inputs : ℕ → Reading) :
    (∀ n : ℕ, isBaselineEstablished (runFromReset sqrtQ inputs n) =
      decide (LEARNING_SAMPLES_MIN ≤ n)) ∧
    (runFromReset sqrtQ inputs LEARNING_SAMPLES_MIN).colonyBaseline.tempMean =
      (statsAfter (fun k => (inputs k).temperature) LEARNING_SAMPLES_MIN).mean ∧
    (runFromReset sqrtQ inputs LEARNING_SAMPLES_MIN).colonyBaseline.tempStdDev =
      (statsAfter (fun k => (inputs k).temperature)
        LEARNING_SAMPLES_MIN).standardDeviation sqrtQ ∧
    (runFromReset sqrtQ inputs LEARNING_SAMPLES_MIN).colonyBaseline.humidityMean =
      (statsAfter (fun k => (inputs k).humidity) LEARNING_SAMPLES_MIN).mean ∧
    (runFromReset sqrtQ inputs LEARNING_SAMPLES_MIN).colonyBaseline.humidityStdDev =
      (statsAfter (fun k => (inputs k).humidity)
        LEARNING_SAMPLES_MIN).standardDeviation sqrtQ ∧
    (runFromReset sqrtQ inputs LEARNING_SAMPLES_MIN).colonyBaseline.pressureMean =
      (statsAfter (fun k => (inputs k).pressure) LEARNING_SAMPLES_MIN).mean ∧
    (runFromReset sqrtQ inputs LEARNING_SAMPLES_MIN).colonyBaseline.pressureStdDev =
      (statsAfter (fun k => (inputs k).pressure)
        LEARNING_SAMPLES_MIN).standardDeviation sqrtQ ∧
    (runFromReset sqrtQ inputs LEARNING_SAMPLES_MIN).colonyBaseline.weightMean =
      (statsAfter (fun k => (inputs k).weight) LEARNING_SAMPLES_MIN).mean ∧
    (runFromReset sqrtQ inputs LEARNING_SAMPLES_MIN).colonyBaseline.weightStdDev =
      (statsAfter (fun k => (inputs k).weight)
        LEARNING_SAMPLES_MIN).standardDeviation sqrtQ ∧
    (∀ i : Fin 4,
      (runFromReset sqrtQ inputs LEARNING_SAMPLES_MIN).colonyBaseline.audioEnergy i =
        (statsAfter (fun k => (inputs k).audioEnergy i) LEARNING_SAMPLES_MIN).mean) ∧
    (∀ i : Fin 4,
      (runFromReset sqrtQ inputs LEARNING_SAMPLES_MIN).colonyBaseline.audioStdDev i =
        (statsAfter (fun k => (inputs k).audioEnergy i)
          LEARNING_SAMPLES_MIN).standardDeviation sqrtQ) ∧
    (runFromReset sqrtQ inputs (LEARNING_SAMPLES_MIN - 1)).saveCalls <
      (runFromReset sqrtQ inputs LEARNING_SAMPLES_MIN).saveCalls := by
  have h99 := runFromReset_collecting_stats sqrtQ inputs 99 (by decide)
  have hcnt : ((runFromReset sqrtQ inputs 99).learningSampleCount + 1) % 65536 =
      LEARNING_SAMPLES_MIN := by
    rw [runFromReset_count]
    rfl
  have hest : (runFromReset sqrtQ inputs 99).baselineEstablished = false := by
    rw [runFromReset_established]
    rfl
  have hstep := updateLearningModel_establishes sqrtQ (runFromReset sqrtQ inputs 99)
    (inputs 99) hcnt hest
  have hrun : runFromReset sqrtQ inputs LEARNING_SAMPLES_MIN =
      updateLearningModel sqrtQ (runFromReset sqrtQ inputs 99) (inputs 99) := rfl
  obtain ⟨e1, e2, e3, e4, e5, e6, e7, e8, e9, e10, e11, e12⟩ := hstep
  obtain ⟨t1, t2, t3, t4, t5⟩ := h99
  refine ⟨?_, ?_, ?_, ?_, ?_, ?_, ?_, ?_, ?_, ?_, ?_, ?_⟩
  · intro n
    exact runFromReset_established sqrtQ inputs n
  · rw [hrun, e2, t1]; rfl
  · rw [hrun, e3, t1]; rfl
  · rw [hrun, e4, t2]; rfl
  · rw [hrun, e5, t2]; rfl
  · rw [hrun, e6, t3]; rfl
  · rw [hrun, e7, t3]; rfl
  · rw [hrun, e8, t4]; rfl
  · rw [hrun, e9, t4]; rfl
  · intro i
    rw [hrun, e10]
    show (((runFromReset sqrtQ inputs 99).audioStats i).addSample
      ((inputs 99).audioEnergy i)).mean = _
    rw [t5 i]
    rfl
  · intro i
    rw [hrun, e11]
    show (((runFromReset sqrtQ inputs 99).audioStats i).addSample
      ((inputs 99).audioEnergy i)).standardDeviation sqrtQ = _
    rw [t5 i]
    rfl
  · exact e12

end Beehive
